import Mathlib

/-
Shallow embedding of the Auth-System-MERN backend authentication workflow
(src/backend/src/controllers/auth.controller.js, the JWT cookie middleware,
and the hourly expired-account sweep), with theorems settling the frozen
claims about the natural-language specification.

Conventions of the embedding:
* The Mongo user collection is a list of records; `findOne` is `List.find?`
  and a mongoose `save` replaces the record with the matching id.
* bcrypt is external to the repository, so `hash` and `compare` are taken
  as function parameters of the controllers that use them and theorems
  quantify over them.
* Request-body fields guarded by a JS falsiness check are `Option String`
  (`none` = absent, `some ""` also falsy).
* Awaited email dispatch either succeeds or throws; the boolean `emailOk`
  parameter selects which, mirroring the try and catch structure of each
  controller.
* JSON bodies carry user objects as association lists of key and value;
  the JS spread with a trailing undefined override followed by JSON
  serialisation (which drops undefined-valued keys) is modelled literally.
-/

namespace AuthSystem

/-- A JSON-ish value as it appears in a response body; `undef` is the
JavaScript undefined value, which JSON serialisation drops. -/
inductive JVal where
  | str : String → JVal
  | num : Nat → JVal
  | boolv : Bool → JVal
  | undef : JVal
deriving DecidableEq

/-- One document of the Mongo user collection, after
src/backend/src/models/user.model.js as used by the controllers: identity,
bcrypt hash, verification state, reset state and bookkeeping. `none` in an
Option field is a field that is unset on the document. -/
structure UserRec where
  id : Nat
  email : String
  password : String
  name : String
  isVerified : Bool
  verificationToken : Option String
  verificationTokenExpiresAt : Option Nat
  resetPasswordToken : Option String
  resetPasswordExpiresAt : Option Nat
  lastLogin : Option Nat
deriving DecidableEq

abbrev Store := List UserRec

/-- Modelled from the spec: the schema file user.model.js is not among the
sources; the spec data model says a record is created on signup unverified,
so the schema default for isVerified is false. -/
def schemaDefaultIsVerified : Bool := false

/-- JS falsiness of an optional request-body string: absent or empty. -/
def falsy : Option String → Bool
  | none => true
  | some s => s = ""

/-- Mongo query clause `{ field : { $gt : now } }` on an optional numeric
field: an unset field never matches. -/
def optGt : Option Nat → Nat → Bool
  | some v, n => n < v
  | none, _ => false

/-- Mongo query clause `{ field : { $lt : now } }` on an optional numeric
field: an unset field never matches. -/
def optLt : Option Nat → Nat → Bool
  | some v, n => v < n
  | none, _ => false

/-- The fields present on `user._doc` for a stored user: always present
identity, hash, name and flag, plus whichever optional fields are set. -/
def docFields (u : UserRec) : List (String × JVal) :=
  [("_id", JVal.num u.id), ("email", JVal.str u.email),
   ("password", JVal.str u.password), ("name", JVal.str u.name),
   ("isVerified", JVal.boolv u.isVerified)]
  ++ (match u.verificationToken with
      | some t => [("verificationToken", JVal.str t)]
      | none => [])
  ++ (match u.verificationTokenExpiresAt with
      | some t => [("verificationTokenExpiresAt", JVal.num t)]
      | none => [])
  ++ (match u.resetPasswordToken with
      | some t => [("resetPasswordToken", JVal.str t)]
      | none => [])
  ++ (match u.resetPasswordExpiresAt with
      | some t => [("resetPasswordExpiresAt", JVal.num t)]
      | none => [])
  ++ (match u.lastLogin with
      | some t => [("lastLogin", JVal.num t)]
      | none => [])

/-- JS object-literal override: the spread of `fs` followed by `k : v`
replaces the value at `k` if present, else appends it. -/
def setKey (fs : List (String × JVal)) (k : String) (v : JVal) :
    List (String × JVal) :=
  if fs.any (fun kv => kv.1 = k) then
    fs.map (fun kv => if kv.1 = k then (k, v) else kv)
  else fs ++ [(k, v)]

/-- JSON.stringify drops keys whose value is undefined. -/
def jsonDropUndef (fs : List (String × JVal)) : List (String × JVal) :=
  fs.filter (fun kv => ¬ kv.2 = JVal.undef)

/-- The serialised user object produced by the controllers that respond
with the spread of `user._doc` and `password : undefined`. -/
def sanitizeUserJson (u : UserRec) : List (String × JVal) :=
  jsonDropUndef (setKey (docFields u) "password" JVal.undef)

/-- Does a serialised object contain the given key. -/
def hasKey (fs : List (String × JVal)) (k : String) : Bool :=
  fs.any (fun kv => kv.1 = k)

/-- An HTTP JSON response as the controllers build it: status, the
`success` and `message` envelope fields, optional serialised user payload,
optional serialised users array with its count, and whether
generateTokenAndSetCookie attached the session cookie (recording the user
id signed into the JWT). -/
structure HttpResponse where
  status : Nat
  success : Bool
  message : String
  userBody : Option (List (String × JVal)) := none
  usersBody : Option (List (List (String × JVal))) := none
  countBody : Option Nat := none
  cookieUserId : Option Nat := none
deriving DecidableEq

/-- The bare response envelope of status, success flag and message, with
no payload and no cookie. -/
def mkResp (st : Nat) (ok : Bool) (msg : String) : HttpResponse :=
  { status := st, success := ok, message := msg }

/-- `User.findOne with an email filter` over the collection. -/
def findByEmail (s : Store) (e : String) : Option UserRec :=
  s.find? (fun u => u.email = e)

/-- A mongoose `save` of a fetched-and-mutated document: the stored record
with the same id is replaced. -/
def saveUser (s : Store) (u : UserRec) : Store :=
  s.map (fun v => if v.id = u.id then u else v)

/-- The `User.findOne` lookup of verifyEmail: matching verification token
and unexpired verification expiry. -/
def findVerif (s : Store) (code : String) (now : Nat) : Option UserRec :=
  s.find? (fun u =>
    decide (u.verificationToken = some code) && optGt u.verificationTokenExpiresAt now)

/-- The `User.findOne` lookup of resetPassword: matching reset token and
unexpired reset expiry. -/
def findReset (s : Store) (token : String) (now : Nat) : Option UserRec :=
  s.find? (fun u =>
    decide (u.resetPasswordToken = some token) && optGt u.resetPasswordExpiresAt now)

/-- The record that a successful signup creates. -/
def newSignupUser (bhash : String → String) (vtok : String) (now nid : Nat)
    (e p n : String) : UserRec :=
  { id := nid, email := e, password := bhash p, name := n,
    isVerified := schemaDefaultIsVerified, verificationToken := some vtok,
    verificationTokenExpiresAt := some (now + 24 * 60 * 60 * 1000),
    resetPasswordToken := none, resetPasswordExpiresAt := none,
    lastLogin := none }

/-- The signup controller. Parameters: the bcrypt hash function, the fresh
verification token, the current time, the fresh record id, whether the
awaited verification-email dispatch succeeds, the store, and the three
request-body fields. Returns the response and the resulting store. -/
def signup (bhash : String → String) (vtok : String) (now nid : Nat)
    (emailOk : Bool) (s : Store) (email password name : Option String) :
    HttpResponse × Store :=
  if falsy email || falsy password || falsy name then
    (mkResp 400 false "All fields are required (email, password, name).", s)
  else
    let e := email.getD ""
    let p := password.getD ""
    let n := name.getD ""
    if p.length < 8 then
      (mkResp 400 false "Password must be at least 8 characters long.", s)
    else if (findByEmail s e).isSome then
      (mkResp 409 false "A user with this email already exists.", s)
    else
      let u : UserRec := newSignupUser bhash vtok now nid e p n
      let s2 := s ++ [u]
      if emailOk then
        ({ mkResp 201 true "User created successfully. Please check your email to verify your account." with
            userBody := some (sanitizeUserJson u), cookieUserId := some nid }, s2)
      else
        ({ mkResp 500 false "Server error during signup: Failed to send verification email" with
            cookieUserId := some nid }, s2)

/-- The outcome of the login controller: the response, the resulting
store, and whether the bcrypt compare call was reached. -/
structure LoginResult where
  resp : HttpResponse
  store : Store
  comparedPassword : Bool
deriving DecidableEq

/-- The login controller. Parameters: the bcrypt compare function (given
the plaintext and the stored hash), the current time, the store, and the
two request-body fields. -/
def login (bcompare : String → String → Bool) (now : Nat) (s : Store)
    (email password : Option String) : LoginResult :=
  if falsy email || falsy password then
    { resp := mkResp 400 false "All fields are required (email and password).",
      store := s, comparedPassword := false }
  else
    let e := email.getD ""
    let p := password.getD ""
    match findByEmail s e with
    | none =>
      { resp := mkResp 401 false "Invalid email or password.",
        store := s, comparedPassword := false }
    | some u =>
      if u.isVerified = false then
        { resp := mkResp 403 false "Please verify your email before logging in.",
          store := s, comparedPassword := false }
      else if bcompare p u.password = false then
        { resp := mkResp 401 false "Invalid email or password.",
          store := s, comparedPassword := true }
      else
        let u2 := { u with lastLogin := some now }
        { resp := { mkResp 200 true "Logged in successfully" with
            userBody := some (sanitizeUserJson u2), cookieUserId := some u.id },
          store := saveUser s u2, comparedPassword := true }

/-- The logout controller: clears the cookie and responds 200. -/
def logout : HttpResponse :=
  mkResp 200 true "Logged out successfully"

/-- The verifyEmail controller. Parameters: current time, whether the
awaited welcome-email dispatch succeeds, the store and the request code. -/
def verifyEmail (now : Nat) (emailOk : Bool) (s : Store) (code : String) :
    HttpResponse × Store :=
  match findVerif s code now with
  | none =>
    (mkResp 400 false "Invalid or expired verification code.", s)
  | some u =>
    let u2 := { u with
      isVerified := true, verificationToken := none,
      verificationTokenExpiresAt := none }
    let s2 := saveUser s u2
    if emailOk then
      ({ mkResp 200 true "Email verified successfully." with
          userBody := some [("_id", JVal.num u2.id), ("name", JVal.str u2.name),
            ("email", JVal.str u2.email), ("isVerified", JVal.boolv u2.isVerified)],
          cookieUserId := some u2.id }, s2)
    else
      (mkResp 500 false "Server error during email verification.", s2)

/-- The forgotPassword controller. Parameters: the fresh random reset
token, the current time, whether the awaited reset-email dispatch
succeeds, the store and the request email. -/
def forgotPassword (rtok : String) (now : Nat) (emailOk : Bool) (s : Store)
    (email : String) : HttpResponse × Store :=
  match findByEmail s email with
  | none =>
    (mkResp 404 false "No User Found With This Email", s)
  | some u =>
    let u2 := { u with
      resetPasswordToken := some rtok,
      resetPasswordExpiresAt := some (now + 60 * 60 * 1000) }
    let s2 := saveUser s u2
    if emailOk then
      (mkResp 200 true "Reset password email sent successfully.", s2)
    else
      (mkResp 500 false "Server error during forgot password.", s2)

/-- The resetPassword controller. Parameters: the bcrypt hash function,
the current time, whether the awaited confirmation-email dispatch
succeeds, the store, the URL-parameter token and the body password. -/
def resetPassword (bhash : String → String) (now : Nat) (emailOk : Bool)
    (s : Store) (token : String) (password : Option String) :
    HttpResponse × Store :=
  if falsy password then
    (mkResp 400 false "Password is required", s)
  else
    let p := password.getD ""
    if p.length < 8 then
      (mkResp 400 false "Password must be at least 8 characters long", s)
    else
      match findReset s token now with
      | none =>
        (mkResp 400 false "Invalid or expired reset token.", s)
      | some u =>
        let u2 := { u with
          password := bhash p, resetPasswordToken := none,
          resetPasswordExpiresAt := none }
        let s2 := saveUser s u2
        if emailOk then
          (mkResp 200 true "Password reset successfully.", s2)
        else
          (mkResp 500 false "Server error during password reset.", s2)

/-- The checkAuth controller: after the middleware resolved a user id,
look the record up and respond with the sanitised user. -/
def checkAuth (s : Store) (userId : Nat) : HttpResponse :=
  match s.find? (fun u => u.id = userId) with
  | none =>
    mkResp 401 false "Unauthorized. Please login to continue."
  | some u =>
    { mkResp 200 true "User is authenticated" with
      userBody := some (sanitizeUserJson u) }

/-- The development-only getAllUsers controller: responds with the raw
user documents of the whole collection. -/
def getAllUsers (s : Store) : HttpResponse :=
  { mkResp 200 true "Users fetched successfully" with
    usersBody := some (s.map docFields), countBody := some s.length }

/-- The hourly sweep: delete every record that is still unverified and
whose verification expiry lies in the past. -/
def sweepExpiredUnverified (now : Nat) (s : Store) : Store :=
  s.filter (fun u => ¬ (u.isVerified = false ∧ optLt u.verificationTokenExpiresAt now))

/-- The shape of a JWT presented to the middleware, as jwt.verify
distinguishes them: decodes to a user id, or is malformed, or is expired. -/
inductive TokenShape where
  | valid : Nat → TokenShape
  | malformed : TokenShape
  | expired : TokenShape
deriving DecidableEq

/-- Modelled from the spec: the jsonwebtoken library is external to the
sources; per the spec the verify primitive checks signature and expiry,
succeeding with the user id of the payload and failing both for a
malformed and for an expired token. -/
def jwtVerify : TokenShape → Except Unit Nat
  | TokenShape.valid uid => Except.ok uid
  | TokenShape.malformed => Except.error ()
  | TokenShape.expired => Except.error ()

/-- Outcome of the verifyToken middleware: proceed with the resolved user
id, or reject with a status and message. -/
inductive MiddlewareOutcome where
  | proceed : Nat → MiddlewareOutcome
  | reject : Nat → String → MiddlewareOutcome
deriving DecidableEq

/-- The verifyToken middleware over the cookie jar: absent cookie is
rejected up front; otherwise jwt.verify either yields the user id or
throws into the catch branch. -/
def verifyToken (cookieToken : Option TokenShape) : MiddlewareOutcome :=
  match cookieToken with
  | none =>
    MiddlewareOutcome.reject 401 "Unauthorized. Please login to continue."
  | some t =>
    match jwtVerify t with
    | Except.ok uid => MiddlewareOutcome.proceed uid
    | Except.error _ =>
      MiddlewareOutcome.reject 401 "Invalid or expired token. Please login again."

/-- A concrete stand-in for the bcrypt hash, used in closed witnesses and
counterexamples (the theorems themselves quantify over the hash). -/
def chash (p : String) : String := String.append "h:" p

/-- A concrete stand-in for the bcrypt compare matching `chash`. -/
def ccompare (p h : String) : Bool := h = chash p

/-- A concrete verified user with no outstanding tokens. -/
def sampleUser : UserRec :=
  { id := 1, email := "a@x.com", password := "h:Password1", name := "A",
    isVerified := true, verificationToken := none,
    verificationTokenExpiresAt := none, resetPasswordToken := none,
    resetPasswordExpiresAt := none, lastLogin := none }

/-- A concrete registered but still unverified user holding a live
verification code 222222 that expires at time 5000. -/
def unverifiedUser : UserRec :=
  { id := 2, email := "b@x.com", password := "h:Password1", name := "B",
    isVerified := false, verificationToken := some "222222",
    verificationTokenExpiresAt := some 5000, resetPasswordToken := none,
    resetPasswordExpiresAt := none, lastLogin := none }

/-- A concrete verified user holding a reset token that expired at time
500. -/
def expiredResetUser : UserRec :=
  { id := 3, email := "c@x.com", password := "h:OldPass11", name := "C",
    isVerified := true, verificationToken := none,
    verificationTokenExpiresAt := none, resetPasswordToken := some "rtok",
    resetPasswordExpiresAt := some 500, lastLogin := none }

/-- A concrete verified user holding a live reset token that expires at
time 9000. -/
def liveResetUser : UserRec :=
  { id := 4, email := "d@x.com", password := "h:OldPass11", name := "D",
    isVerified := true, verificationToken := none,
    verificationTokenExpiresAt := none, resetPasswordToken := some "livetok",
    resetPasswordExpiresAt := some 9000, lastLogin := none }

/-- Whether an optional serialised user object avoids the password key;
an absent payload counts as avoiding it. -/
def noPasswordKey : Option (List (String × JVal)) → Bool
  | none => true
  | some fs => !hasKey fs "password"

/-- Between a pre-state and a post-state of the store, no user keeps its
identity while losing a true isVerified flag: any post-state record whose
id belonged to a verified pre-state record is still verified. -/
def verifiedPreserved (s s2 : Store) : Prop :=
  ∀ v2 ∈ s2, ∀ v ∈ s, v2.id = v.id → v.isVerified = true →
    v2.isVerified = true

/-- The status of a middleware rejection, if any. -/
def rejectStatus : MiddlewareOutcome → Option Nat
  | MiddlewareOutcome.reject st _ => some st
  | MiddlewareOutcome.proceed _ => none

/-- The message of a middleware rejection, if any. -/
def rejectMessage : MiddlewareOutcome → Option String
  | MiddlewareOutcome.reject _ m => some m
  | MiddlewareOutcome.proceed _ => none

/-! Helper lemmas shared by several claims. -/

/-- The spread-then-serialise sanitisation never leaves a password key. -/
theorem hasKey_sanitizeUserJson (u : UserRec) :
    hasKey (sanitizeUserJson u) "password" = false := by
  rcases u with ⟨i, e, pw, n, iv, vt, vte, rt, rte, ll⟩
  cases vt <;> cases vte <;> cases rt <;> cases rte <;> cases ll <;> rfl

/-- Every raw user document carries its password key. -/
theorem hasKey_docFields_password (u : UserRec) :
    hasKey (docFields u) "password" = true := rfl

/-- Claim C1: user objects in the bodies of signup, login, verify-email
and check-auth responses never contain the password key, while the
development-only getAllUsers endpoint returns the raw documents, each of
which does contain it (the amended form of the claim). -/
theorem C1_theorem :
    (∀ bhash vtok now nid eok s e p n,
       noPasswordKey (signup bhash vtok now nid eok s e p n).1.userBody = true) ∧
    (∀ bc now s e p,
       noPasswordKey (login bc now s e p).resp.userBody = true) ∧
    (∀ now eok s code,
       noPasswordKey (verifyEmail now eok s code).1.userBody = true) ∧
    (∀ s uid, noPasswordKey (checkAuth s uid).userBody = true) ∧
    (∀ s, (getAllUsers s).usersBody = some (s.map docFields)) ∧
    (∀ u : UserRec, hasKey (docFields u) "password" = true) := by
  refine ⟨?_, ?_, ?_, ?_, ?_, ?_⟩
  · intro bhash vtok now nid eok s e p n
    simp only [signup]
    split
    · rfl
    · split
      · rfl
      · split
        · rfl
        · split <;>
            simp [noPasswordKey, mkResp, hasKey_sanitizeUserJson]
  · intro bc now s e p
    simp only [login]
    split
    · rfl
    · split
      · rfl
      · split
        · rfl
        · split
          · rfl
          · simp [noPasswordKey, mkResp, hasKey_sanitizeUserJson]
  · intro now eok s code
    simp only [verifyEmail]
    split
    · rfl
    · split <;> rfl
  · intro s uid
    simp only [checkAuth]
    split
    · rfl
    · simp [noPasswordKey, mkResp, hasKey_sanitizeUserJson]
  · intro s
    rfl
  · exact hasKey_docFields_password

/-- Claim C1 counterexample: on a store holding one verified user, the
getAllUsers response body contains that user's raw document, password
hash included, refuting the claim that every endpoint omits it. -/
theorem C1_counterexample :
    (getAllUsers [sampleUser]).usersBody = some [docFields sampleUser] ∧
    ("password", JVal.str "h:Password1") ∈ docFields sampleUser := by
  decide

/-- Claim C2: all three token-verification failures are rejected with
status 401, and a malformed and an expired token produce the identical
generic message, but an absent token produces a different message, so a
caller can distinguish absence from the other two (the amended form of
the claim). -/
theorem C2_theorem :
    verifyToken none =
      MiddlewareOutcome.reject 401 "Unauthorized. Please login to continue." ∧
    verifyToken (some TokenShape.malformed) =
      MiddlewareOutcome.reject 401 "Invalid or expired token. Please login again." ∧
    verifyToken (some TokenShape.expired) =
      MiddlewareOutcome.reject 401 "Invalid or expired token. Please login again." ∧
    rejectStatus (verifyToken none) =
      rejectStatus (verifyToken (some TokenShape.malformed)) ∧
    rejectStatus (verifyToken none) =
      rejectStatus (verifyToken (some TokenShape.expired)) := by
  decide

/-- Claim C2 counterexample: the middleware message for an absent token
differs from the message for a malformed token, refuting the uniform
failure message asserted by the claim. -/
theorem C2_counterexample :
    rejectMessage (verifyToken none) =
      some "Unauthorized. Please login to continue." ∧
    rejectMessage (verifyToken (some TokenShape.malformed)) =
      some "Invalid or expired token. Please login again." ∧
    decide (rejectMessage (verifyToken none) =
      rejectMessage (verifyToken (some TokenShape.malformed))) = false := by
  decide

/-- Claim C3: on a signup whose record creation succeeds (valid fields,
fresh email), the record is created and the session cookie set, and the
verification-email dispatch is awaited; if the dispatch fails the failure
is caught and the response is 500 with a server-error message - not the
201 record-creation success - while the created record stays persisted
and the cookie stays set (the amended form of the claim). -/
theorem C3_theorem (bhash : String → String) (vtok : String) (now nid : Nat)
    (s : Store) (e p n : String)
    (he : ¬ e = "") (hp : 8 ≤ p.length) (hn : ¬ n = "")
    (hfresh : findByEmail s e = none) :
    (signup bhash vtok now nid true s (some e) (some p) (some n)).1.status = 201 ∧
    (signup bhash vtok now nid false s (some e) (some p) (some n)).1.status = 500 ∧
    (signup bhash vtok now nid false s (some e) (some p) (some n)).1.success = false ∧
    (signup bhash vtok now nid false s (some e) (some p) (some n)).1.message =
      "Server error during signup: Failed to send verification email" ∧
    (signup bhash vtok now nid false s (some e) (some p) (some n)).1.cookieUserId =
      some nid ∧
    (signup bhash vtok now nid false s (some e) (some p) (some n)).2 =
      (signup bhash vtok now nid true s (some e) (some p) (some n)).2 := by
  have hp0 : ¬ p = "" := by
    intro h
    subst h
    simp at hp
  have hlen : ¬ p.length < 8 := by omega
  simp [signup, falsy, he, hp0, hn, hlen, hfresh, mkResp]

/-- Claim C3 witness at a concrete fresh signup whose email dispatch
fails. -/
theorem C3_witness :
    (signup chash "123456" 1000 7 true [] (some "a@x.com") (some "Password1")
      (some "A")).1.status = 201 ∧
    (signup chash "123456" 1000 7 false [] (some "a@x.com") (some "Password1")
      (some "A")).1.status = 500 ∧
    (signup chash "123456" 1000 7 false [] (some "a@x.com") (some "Password1")
      (some "A")).1.success = false ∧
    (signup chash "123456" 1000 7 false [] (some "a@x.com") (some "Password1")
      (some "A")).1.message =
      "Server error during signup: Failed to send verification email" ∧
    (signup chash "123456" 1000 7 false [] (some "a@x.com") (some "Password1")
      (some "A")).1.cookieUserId = some 7 ∧
    (signup chash "123456" 1000 7 false [] (some "a@x.com") (some "Password1")
      (some "A")).2 =
      (signup chash "123456" 1000 7 true [] (some "a@x.com") (some "Password1")
        (some "A")).2 :=
  C3_theorem chash "123456" 1000 7 [] "a@x.com" "Password1" "A"
    (by decide) (by decide) (by decide) (by decide)

/-- Claim C3 counterexample: at a concrete valid signup whose awaited
verification-email dispatch fails, the response is 500 and not a
success, refuting the claim that the response still reflects the 201
record-creation success. -/
theorem C3_counterexample :
    (signup chash "123456" 1000 7 false [] (some "a@x.com") (some "Password1")
      (some "A")).1.status = 500 ∧
    (signup chash "123456" 1000 7 false [] (some "a@x.com") (some "Password1")
      (some "A")).1.success = false := by
  decide

/-- Claim C4: login fails with the identical 401 response, status and
message alike, whether the email is unregistered or the password is wrong
for a registered verified user (the amended form of the claim, which
restricts the second case to verified accounts). -/
theorem C4_theorem (bcompare : String → String → Bool) (now1 now2 : Nat)
    (s : Store) (e1 p1 e2 p2 : String) (u : UserRec)
    (he1 : ¬ e1 = "") (hp1 : ¬ p1 = "") (he2 : ¬ e2 = "") (hp2 : ¬ p2 = "")
    (habs : findByEmail s e1 = none)
    (hreg : findByEmail s e2 = some u) (hver : u.isVerified = true)
    (hwrong : bcompare p2 u.password = false) :
    (login bcompare now1 s (some e1) (some p1)).resp =
      mkResp 401 false "Invalid email or password." ∧
    (login bcompare now2 s (some e2) (some p2)).resp =
      mkResp 401 false "Invalid email or password." := by
  constructor
  · simp [login, falsy, he1, hp1, habs]
  · simp [login, falsy, he2, hp2, hreg, hver, hwrong]

/-- Claim C4 witness: a concrete store where one run uses an unregistered
email and the other a wrong password for a registered verified user. -/
theorem C4_witness :
    (login ccompare 1000 [sampleUser] (some "zz@x.com") (some "AnyPass11")).resp =
      mkResp 401 false "Invalid email or password." ∧
    (login ccompare 2000 [sampleUser] (some "a@x.com") (some "WrongPass1")).resp =
      mkResp 401 false "Invalid email or password." :=
  C4_theorem ccompare 1000 2000 [sampleUser] "zz@x.com" "AnyPass11" "a@x.com"
    "WrongPass1" sampleUser (by decide) (by decide) (by decide) (by decide)
    (by decide) (by decide) (by decide) (by decide)

/-- Claim C4 counterexample: for a registered but unverified user a wrong
password produces 403 with the verification message, not the 401 response
the claim asserts for every registered user. -/
theorem C4_counterexample :
    (login ccompare 1000 [unverifiedUser] (some "b@x.com")
      (some "WrongPass1")).resp.status = 403 ∧
    (login ccompare 1000 [unverifiedUser] (some "b@x.com")
      (some "WrongPass1")).resp.message =
      "Please verify your email before logging in." ∧
    ccompare "WrongPass1" unverifiedUser.password = false := by
  decide

/-- Saving a mutated copy of a stored user keeps it in the collection. -/
theorem mem_saveUser_self (s : Store) (u u2 : UserRec) (hu : u ∈ s)
    (hid : u2.id = u.id) : u2 ∈ saveUser s u2 := by
  rw [saveUser, List.mem_map]
  exact ⟨u, hu, by simp [hid]⟩

/-- After saving a copy of the consuming user with its verification token
cleared, no user matches that code any more, provided the code singled
out the consuming user in the original store. -/
theorem findVerif_saveUser_none (s : Store) (code : String) (now2 : Nat)
    (u u2 : UserRec) (hid : u2.id = u.id) (htok : u2.verificationToken = none)
    (huniq : ∀ v ∈ s, v.verificationToken = some code → v = u) :
    findVerif (saveUser s u2) code now2 = none := by
  rw [findVerif, List.find?_eq_none]
  intro v2 hv2
  rw [saveUser, List.mem_map] at hv2
  obtain ⟨v, hv, rfl⟩ := hv2
  by_cases h : v.id = u2.id
  · simp [h, htok]
  · simp only [h, if_false]
    intro hpred
    simp only [Bool.and_eq_true, decide_eq_true_eq] at hpred
    have hvu := huniq v hv hpred.1
    subst hvu
    exact h hid.symm

/-- The reset-token analogue of findVerif_saveUser_none. -/
theorem findReset_saveUser_none (s : Store) (tok : String) (now2 : Nat)
    (u u2 : UserRec) (hid : u2.id = u.id) (htok : u2.resetPasswordToken = none)
    (huniq : ∀ v ∈ s, v.resetPasswordToken = some tok → v = u) :
    findReset (saveUser s u2) tok now2 = none := by
  rw [findReset, List.find?_eq_none]
  intro v2 hv2
  rw [saveUser, List.mem_map] at hv2
  obtain ⟨v, hv, rfl⟩ := hv2
  by_cases h : v.id = u2.id
  · simp [h, htok]
  · simp only [h, if_false]
    intro hpred
    simp only [Bool.and_eq_true, decide_eq_true_eq] at hpred
    have hvu := huniq v hv hpred.1
    subst hvu
    exact h hid.symm

/-- When the verification lookup succeeds, the persisted store is the
save of the consuming user with flag set and both fields cleared,
whichever way the welcome-email dispatch goes. -/
theorem verifyEmail_found (now : Nat) (eok : Bool) (s : Store) (code : String)
    (u : UserRec) (hfound : findVerif s code now = some u) :
    (verifyEmail now eok s code).2 = saveUser s { u with
      isVerified := true, verificationToken := none,
      verificationTokenExpiresAt := none } := by
  cases eok <;> simp [verifyEmail, hfound]

/-- When the verification lookup fails, verifyEmail responds 400 with the
generic message and leaves the store untouched. -/
theorem verifyEmail_none (now : Nat) (eok : Bool) (s : Store) (code : String)
    (hnone : findVerif s code now = none) :
    verifyEmail now eok s code =
      (mkResp 400 false "Invalid or expired verification code.", s) := by
  simp [verifyEmail, hnone]

/-- When the reset lookup succeeds on a valid password, the persisted
store is the save of the consuming user with the new hash and both reset
fields cleared, whichever way the confirmation-email dispatch goes. -/
theorem resetPassword_found (bhash : String → String) (now : Nat) (eok : Bool)
    (s : Store) (tok : String) (p : String) (u : UserRec)
    (hp : ¬ p = "") (hlen : ¬ p.length < 8)
    (hfound : findReset s tok now = some u) :
    (resetPassword bhash now eok s tok (some p)).2 = saveUser s { u with
      password := bhash p, resetPasswordToken := none,
      resetPasswordExpiresAt := none } := by
  cases eok <;> simp [resetPassword, falsy, hp, hlen, hfound]

/-- When the reset lookup fails on a valid password, resetPassword
responds 400 with the generic message and leaves the store untouched. -/
theorem resetPassword_none (bhash : String → String) (now : Nat) (eok : Bool)
    (s : Store) (tok : String) (p : String)
    (hp : ¬ p = "") (hlen : ¬ p.length < 8)
    (hnone : findReset s tok now = none) :
    resetPassword bhash now eok s tok (some p) =
      (mkResp 400 false "Invalid or expired reset token.", s) := by
  simp [resetPassword, falsy, hp, hlen, hnone]

/-- Claim C5: a verification code, and likewise a reset token, is single
use. A successful verify-email clears both the token and its expiry in
the one persisted save, so a second request with the same code gets the
same 400 invalid-or-expired response as a never-issued code gets on an
empty store, and the store is left unchanged by the second request; the
reset-password half behaves the same way. The code is assumed to single
out one user, as codes are issued per user. -/
theorem C5_theorem :
    (∀ (now now2 : Nat) (eok eok2 : Bool) (s : Store) (code : String)
        (u : UserRec),
      findVerif s code now = some u →
      (∀ v ∈ s, v.verificationToken = some code → v = u) →
      (∃ u2 ∈ (verifyEmail now eok s code).2, u2.id = u.id ∧
        u2.isVerified = true ∧ u2.verificationToken = none ∧
        u2.verificationTokenExpiresAt = none) ∧
      verifyEmail now2 eok2 (verifyEmail now eok s code).2 code =
        (mkResp 400 false "Invalid or expired verification code.",
         (verifyEmail now eok s code).2) ∧
      verifyEmail now2 eok2 ([] : Store) code =
        (mkResp 400 false "Invalid or expired verification code.", [])) ∧
    (∀ (bhash : String → String) (now now2 : Nat) (eok eok2 : Bool)
        (s : Store) (tok p p2 : String) (u : UserRec),
      ¬ p = "" → ¬ p.length < 8 → ¬ p2 = "" → ¬ p2.length < 8 →
      findReset s tok now = some u →
      (∀ v ∈ s, v.resetPasswordToken = some tok → v = u) →
      (∃ u2 ∈ (resetPassword bhash now eok s tok (some p)).2, u2.id = u.id ∧
        u2.password = bhash p ∧ u2.resetPasswordToken = none ∧
        u2.resetPasswordExpiresAt = none) ∧
      resetPassword bhash now2 eok2 (resetPassword bhash now eok s tok (some p)).2
          tok (some p2) =
        (mkResp 400 false "Invalid or expired reset token.",
         (resetPassword bhash now eok s tok (some p)).2) ∧
      resetPassword bhash now2 eok2 ([] : Store) tok (some p2) =
        (mkResp 400 false "Invalid or expired reset token.", [])) := by
  constructor
  · intro now now2 eok eok2 s code u hfound huniq
    have hu : u ∈ s := List.mem_of_find?_eq_some hfound
    have hstore := verifyEmail_found now eok s code u hfound
    have hnone := findVerif_saveUser_none s code now2 u
      { u with
        isVerified := true, verificationToken := none,
        verificationTokenExpiresAt := none } rfl rfl huniq
    refine ⟨?_, ?_, ?_⟩
    · rw [hstore]
      exact ⟨_, mem_saveUser_self s u _ hu rfl, rfl, rfl, rfl, rfl⟩
    · rw [hstore]
      exact verifyEmail_none now2 eok2 _ code hnone
    · exact verifyEmail_none now2 eok2 [] code rfl
  · intro bhash now now2 eok eok2 s tok p p2 u hp hlen hp2 hlen2 hfound huniq
    have hu : u ∈ s := List.mem_of_find?_eq_some hfound
    have hstore := resetPassword_found bhash now eok s tok p u hp hlen hfound
    have hnone := findReset_saveUser_none s tok now2 u
      { u with
        password := bhash p, resetPasswordToken := none,
        resetPasswordExpiresAt := none } rfl rfl huniq
    refine ⟨?_, ?_, ?_⟩
    · rw [hstore]
      exact ⟨_, mem_saveUser_self s u _ hu rfl, rfl, rfl, rfl, rfl⟩
    · rw [hstore]
      exact resetPassword_none bhash now2 eok2 _ tok p2 hp2 hlen2 hnone
    · exact resetPassword_none bhash now2 eok2 [] tok p2 hp2 hlen2 rfl

/-- Claim C5 witness: the concrete unverified user consumes code 222222
at time 1000; replaying the code fails 400 exactly like the empty store,
and the live reset token livetok behaves the same way. -/
theorem C5_witness :
    ((∃ u2 ∈ (verifyEmail 1000 true [unverifiedUser] "222222").2,
        u2.id = unverifiedUser.id ∧ u2.isVerified = true ∧
        u2.verificationToken = none ∧ u2.verificationTokenExpiresAt = none) ∧
      verifyEmail 2000 true (verifyEmail 1000 true [unverifiedUser] "222222").2
          "222222" =
        (mkResp 400 false "Invalid or expired verification code.",
         (verifyEmail 1000 true [unverifiedUser] "222222").2) ∧
      verifyEmail 2000 true ([] : Store) "222222" =
        (mkResp 400 false "Invalid or expired verification code.", [])) ∧
    ((∃ u2 ∈ (resetPassword chash 1000 true [liveResetUser] "livetok"
          (some "NewPass11")).2, u2.id = liveResetUser.id ∧
        u2.password = chash "NewPass11" ∧ u2.resetPasswordToken = none ∧
        u2.resetPasswordExpiresAt = none) ∧
      resetPassword chash 2000 true
          (resetPassword chash 1000 true [liveResetUser] "livetok"
            (some "NewPass11")).2 "livetok" (some "NewPass22") =
        (mkResp 400 false "Invalid or expired reset token.",
         (resetPassword chash 1000 true [liveResetUser] "livetok"
           (some "NewPass11")).2) ∧
      resetPassword chash 2000 true ([] : Store) "livetok" (some "NewPass22") =
        (mkResp 400 false "Invalid or expired reset token.", [])) :=
  ⟨C5_theorem.1 1000 2000 true true [unverifiedUser] "222222" unverifiedUser
      (by decide) (by decide),
   C5_theorem.2 chash 1000 2000 true true [liveResetUser] "livetok"
      "NewPass11" "NewPass22" liveResetUser (by decide) (by decide)
      (by decide) (by decide) (by decide) (by decide)⟩

/-- Claim C6: for every reset-password request whose submitted password
passes validation (present and at least 8 characters) and whose reset
token is expired or matches no user, the response is 400 with the generic
invalid-or-expired message and the store - with every password hash in it
- is returned unchanged (the amended form of the claim, which restricts
it to requests that pass the password validation that the controller runs
first). -/
theorem C6_theorem (bhash : String → String) (now : Nat) (eok : Bool)
    (s : Store) (tok : String) (q : String)
    (hq : ¬ q = "") (hlen : ¬ q.length < 8)
    (hnone : findReset s tok now = none) :
    resetPassword bhash now eok s tok (some q) =
      (mkResp 400 false "Invalid or expired reset token.", s) :=
  resetPassword_none bhash now eok s tok q hq hlen hnone

/-- Claim C6 witness: concrete reset attempt at time 1000 against a token
that expired at time 500. -/
theorem C6_witness :
    resetPassword chash 1000 true [expiredResetUser] "rtok" (some "NewPass11") =
      (mkResp 400 false "Invalid or expired reset token.", [expiredResetUser]) :=
  C6_theorem chash 1000 true [expiredResetUser] "rtok" "NewPass11"
    (by decide) (by decide) (by decide)

/-- Claim C6 counterexample: a reset-password request with an expired
token and a five-character password is answered with the password-length
message, not the invalid-or-expired message the claim asserts for every
expired-token request. -/
theorem C6_counterexample :
    (resetPassword chash 1000 true [expiredResetUser] "rtok"
      (some "short")).1.message =
      "Password must be at least 8 characters long" ∧
    decide ((resetPassword chash 1000 true [expiredResetUser] "rtok"
      (some "short")).1.message = "Invalid or expired reset token.") = false := by
  decide

/-- A user appended to the store is found by its own email. -/
theorem findByEmail_append_self (s : Store) (u : UserRec) :
    (findByEmail (s ++ [u]) u.email).isSome = true := by
  simp [findByEmail]

/-- A signup against a store that already holds the email never returns
201, whatever the rest of the request. -/
theorem signup_existing_not_201 (bhash : String → String) (vtok : String)
    (now nid : Nat) (eok : Bool) (s : Store) (e : String)
    (hex : (findByEmail s e).isSome = true) (p n : Option String) :
    ¬ (signup bhash vtok now nid eok s (some e) p n).1.status = 201 := by
  intro h
  simp only [signup, Option.getD_some] at h
  split at h
  · simp [mkResp] at h
  · split at h
    · simp [mkResp] at h
    · simp [mkResp] at h

/-- On a valid signup with a fresh email the resulting store is the old
one with the new record appended, whichever way the email dispatch
goes. -/
theorem signup_success_store (bhash : String → String) (vtok : String)
    (now nid : Nat) (eok : Bool) (s : Store) (e p n : String)
    (he : ¬ e = "") (hlen : ¬ p.length < 8) (hn : ¬ n = "")
    (hfresh : findByEmail s e = none) :
    (signup bhash vtok now nid eok s (some e) (some p) (some n)).2 =
      s ++ [newSignupUser bhash vtok now nid e p n] := by
  have hp0 : ¬ p = "" := fun h => hlen (by simp [h])
  cases eok <;> simp [signup, falsy, he, hp0, hn, hlen, hfresh]

/-- Claim C7: a signup whose payload passes field-presence and
password-length validation and whose email already belongs to a stored
user is rejected with 409, the store unchanged and the response
independent of the hashing function (no record creation, no merging); and
whenever a signup returns 201, any later signup with the same email
against the resulting store cannot also return 201 (the amended form of
the claim, which restricts the 409 promise to payloads that pass the
validation checks the controller runs first). -/
theorem C7_theorem :
    (∀ (bhash bhash2 : String → String) (vtok : String) (now nid : Nat)
        (eok : Bool) (s : Store) (e p n : String) (u : UserRec),
      ¬ e = "" → ¬ p.length < 8 → ¬ n = "" → findByEmail s e = some u →
      signup bhash vtok now nid eok s (some e) (some p) (some n) =
        (mkResp 409 false "A user with this email already exists.", s) ∧
      signup bhash2 vtok now nid eok s (some e) (some p) (some n) =
        signup bhash vtok now nid eok s (some e) (some p) (some n)) ∧
    (∀ (bhash : String → String) (vtok : String) (now nid : Nat) (s : Store)
        (e p n : String),
      ¬ e = "" → ¬ p.length < 8 → ¬ n = "" → findByEmail s e = none →
      (signup bhash vtok now nid true s (some e) (some p) (some n)).1.status
          = 201 ∧
      ∀ (bhash2 : String → String) (vtok2 : String) (now2 nid2 : Nat)
          (eok2 : Bool) (p2 n2 : Option String),
        ¬ (signup bhash2 vtok2 now2 nid2 eok2
            (signup bhash vtok now nid true s (some e) (some p) (some n)).2
            (some e) p2 n2).1.status = 201) := by
  constructor
  · intro bhash bhash2 vtok now nid eok s e p n u he hlen hn hfound
    have hp0 : ¬ p = "" := fun h => hlen (by simp [h])
    constructor
    · simp [signup, falsy, he, hp0, hn, hlen, hfound, mkResp]
    · simp [signup, falsy, he, hp0, hn, hlen, hfound, mkResp]
  · intro bhash vtok now nid s e p n he hlen hn hfresh
    have hp0 : ¬ p = "" := fun h => hlen (by simp [h])
    constructor
    · simp [signup, falsy, he, hp0, hn, hlen, hfresh, mkResp]
    · intro bhash2 vtok2 now2 nid2 eok2 p2 n2
      rw [signup_success_store bhash vtok now nid true s e p n he hlen hn hfresh]
      exact signup_existing_not_201 bhash2 vtok2 now2 nid2 eok2 _ e
        (findByEmail_append_self s _) p2 n2

/-- Claim C7 witness: concrete duplicate signup against the sample user,
and a concrete fresh signup followed by a duplicate. -/
theorem C7_witness :
    (signup chash "123456" 1000 9 true [sampleUser] (some "a@x.com")
        (some "Password2") (some "Z") =
      (mkResp 409 false "A user with this email already exists.",
       [sampleUser]) ∧
     signup (fun p => p) "123456" 1000 9 true [sampleUser] (some "a@x.com")
        (some "Password2") (some "Z") =
      signup chash "123456" 1000 9 true [sampleUser] (some "a@x.com")
        (some "Password2") (some "Z")) ∧
    ((signup chash "123456" 1000 9 true [] (some "a@x.com")
        (some "Password2") (some "Z")).1.status = 201 ∧
     ¬ (signup chash "777777" 2000 10 true
         (signup chash "123456" 1000 9 true [] (some "a@x.com")
           (some "Password2") (some "Z")).2
         (some "a@x.com") (some "Password3") (some "W")).1.status = 201) :=
  ⟨C7_theorem.1 chash (fun p => p) "123456" 1000 9 true [sampleUser]
      "a@x.com" "Password2" "Z" sampleUser (by decide) (by decide)
      (by decide) (by decide),
   ⟨(C7_theorem.2 chash "123456" 1000 9 [] "a@x.com" "Password2" "Z"
      (by decide) (by decide) (by decide) (by decide)).1,
    (C7_theorem.2 chash "123456" 1000 9 [] "a@x.com" "Password2" "Z"
      (by decide) (by decide) (by decide) (by decide)).2 chash "777777"
      2000 10 true (some "Password3") (some "W")⟩⟩

/-- Claim C7 counterexample: a signup whose email already exists but
whose password is five characters long is rejected with 400 for the
password length, not with the 409 conflict the claim asserts for every
duplicate-email signup. -/
theorem C7_counterexample :
    (signup chash "123456" 1000 9 true [sampleUser] (some "a@x.com")
      (some "short") (some "Z")).1.status = 400 ∧
    (signup chash "123456" 1000 9 true [sampleUser] (some "a@x.com")
      (some "short") (some "Z")).1.message =
      "Password must be at least 8 characters long." := by
  decide

/-- In a store whose ids are distinct, two members with the same id are
the same record. -/
theorem eq_of_mem_of_nodup_map_id (s : Store)
    (hnd : (s.map UserRec.id).Nodup) (a b : UserRec)
    (ha : a ∈ s) (hb : b ∈ s) (hid : a.id = b.id) : a = b :=
  List.inj_on_of_nodup_map hnd ha hb hid

/-- Any sub-collection of a distinct-id store preserves verified flags. -/
theorem verifiedPreserved_sub (s s2 : Store)
    (hnd : (s.map UserRec.id).Nodup) (hsub : ∀ x ∈ s2, x ∈ s) :
    verifiedPreserved s s2 := by
  intro v2 hv2 v hv hvid hver
  rw [eq_of_mem_of_nodup_map_id s hnd v2 v (hsub v2 hv2) hv hvid]
  exact hver

/-- The unchanged store preserves verified flags. -/
theorem verifiedPreserved_self (s : Store)
    (hnd : (s.map UserRec.id).Nodup) : verifiedPreserved s s :=
  verifiedPreserved_sub s s hnd (fun _ hx => hx)

/-- Saving a mutated copy of a stored user preserves verified flags as
long as the mutation does not turn the flag off. -/
theorem verifiedPreserved_saveUser (s : Store)
    (hnd : (s.map UserRec.id).Nodup) (u u2 : UserRec) (hu : u ∈ s)
    (hid : u2.id = u.id)
    (himp : u.isVerified = true → u2.isVerified = true) :
    verifiedPreserved s (saveUser s u2) := by
  intro v2 hv2 v hv hvid hver
  rw [saveUser, List.mem_map] at hv2
  obtain ⟨w, hw, rfl⟩ := hv2
  by_cases h : w.id = u2.id
  · simp only [h, if_true] at hvid ⊢
    have hvu : v = u :=
      eq_of_mem_of_nodup_map_id s hnd v u hv hu (by rw [← hvid, hid])
    subst hvu
    exact himp hver
  · simp only [h, if_false] at hvid ⊢
    rw [eq_of_mem_of_nodup_map_id s hnd w v hw hv hvid]
    exact hver

/-- Appending a record with a fresh id preserves verified flags. -/
theorem verifiedPreserved_append (s : Store)
    (hnd : (s.map UserRec.id).Nodup) (u : UserRec)
    (hfresh : u.id ∉ s.map UserRec.id) :
    verifiedPreserved s (s ++ [u]) := by
  intro v2 hv2 v hv hvid hver
  rw [List.mem_append] at hv2
  rcases hv2 with h2 | h2
  · exact verifiedPreserved_self s hnd v2 h2 v hv hvid hver
  · rw [List.mem_singleton] at h2
    subst h2
    have hmem : v.id ∈ s.map UserRec.id := List.mem_map_of_mem UserRec.id hv
    rw [← hvid] at hmem
    exact absurd hmem hfresh

/-- The signup store is either unchanged or the old store with the fresh
record appended. -/
theorem signup_store_cases (bhash : String → String) (vtok : String)
    (now nid : Nat) (eok : Bool) (s : Store) (e p n : Option String) :
    (signup bhash vtok now nid eok s e p n).2 = s ∨
    (signup bhash vtok now nid eok s e p n).2 =
      s ++ [newSignupUser bhash vtok now nid (e.getD "") (p.getD "")
        (n.getD "")] := by
  simp only [signup]
  split
  · exact Or.inl (by trivial)
  · split
    · exact Or.inl (by trivial)
    · split
      · exact Or.inl (by trivial)
      · split
        · exact Or.inr (by trivial)
        · exact Or.inr (by trivial)

/-- The login store is either unchanged or the save of the found user
with a refreshed lastLogin. -/
theorem login_store_cases (bc : String → String → Bool) (now : Nat)
    (s : Store) (e p : Option String) :
    (login bc now s e p).store = s ∨
    ∃ u ∈ s, (login bc now s e p).store =
      saveUser s { u with lastLogin := some now } := by
  simp only [login]
  split
  · exact Or.inl (by trivial)
  · cases hf : findByEmail s (e.getD "") with
    | none =>
      simp only [hf]
      exact Or.inl (by trivial)
    | some u =>
      simp only [hf]
      split
      · exact Or.inl (by trivial)
      · split
        · exact Or.inl (by trivial)
        · exact Or.inr ⟨u, List.mem_of_find?_eq_some hf, rfl⟩

/-- The verifyEmail store is either unchanged or the save of the
consuming user with the flag set and verification fields cleared. -/
theorem verifyEmail_store_cases (now : Nat) (eok : Bool) (s : Store)
    (code : String) :
    (verifyEmail now eok s code).2 = s ∨
    ∃ u ∈ s, (verifyEmail now eok s code).2 = saveUser s { u with
      isVerified := true, verificationToken := none,
      verificationTokenExpiresAt := none } := by
  cases hf : findVerif s code now with
  | none =>
    left
    rw [verifyEmail_none now eok s code hf]
  | some u =>
    right
    exact ⟨u, List.mem_of_find?_eq_some hf, verifyEmail_found now eok s code u hf⟩

/-- The forgotPassword store is either unchanged or the save of the found
user with refreshed reset fields. -/
theorem forgotPassword_store_cases (rtok : String) (now : Nat) (eok : Bool)
    (s : Store) (email : String) :
    (forgotPassword rtok now eok s email).2 = s ∨
    ∃ u ∈ s, (forgotPassword rtok now eok s email).2 = saveUser s { u with
      resetPasswordToken := some rtok,
      resetPasswordExpiresAt := some (now + 60 * 60 * 1000) } := by
  cases hf : findByEmail s email with
  | none =>
    left
    simp [forgotPassword, hf]
  | some u =>
    right
    refine ⟨u, List.mem_of_find?_eq_some hf, ?_⟩
    cases eok <;> simp [forgotPassword, hf]

/-- The resetPassword store is either unchanged or the save of the
consuming user with the new hash and cleared reset fields. -/
theorem resetPassword_store_cases (bhash : String → String) (now : Nat)
    (eok : Bool) (s : Store) (tok : String) (p : Option String) :
    (resetPassword bhash now eok s tok p).2 = s ∨
    ∃ u ∈ s, (resetPassword bhash now eok s tok p).2 = saveUser s { u with
      password := bhash (p.getD ""), resetPasswordToken := none,
      resetPasswordExpiresAt := none } := by
  simp only [resetPassword]
  split
  · exact Or.inl (by trivial)
  · split
    · exact Or.inl (by trivial)
    · cases hf : findReset s tok now with
      | none =>
        simp only [hf]
        exact Or.inl (by trivial)
      | some u =>
        simp only [hf]
        refine Or.inr ⟨u, List.mem_of_find?_eq_some hf, ?_⟩
        cases eok <;> simp

/-- A record deleted by the sweep was still unverified. -/
theorem sweep_deletes_unverified (now : Nat) (s : Store) (v : UserRec)
    (hv : v ∈ s) (hnot : v ∉ sweepExpiredUnverified now s) :
    v.isVerified = false := by
  by_contra h
  rw [Bool.not_eq_false] at h
  apply hnot
  rw [sweepExpiredUnverified, List.mem_filter]
  exact ⟨hv, by simp [h]⟩

/-- Claim C8: on a store with distinct record ids (and a fresh id for
signup), each operation of the system - signup, login, verify-email,
forgot-password, reset-password and the background sweep - preserves a
true isVerified flag: no surviving record of a verified user ever has the
flag turned back off, and the sweep only ever deletes records that are
still unverified. -/
theorem C8_theorem :
    (∀ (bhash : String → String) (vtok : String) (now nid : Nat)
        (eok : Bool) (s : Store) (e p n : Option String),
      (s.map UserRec.id).Nodup → nid ∉ s.map UserRec.id →
      verifiedPreserved s (signup bhash vtok now nid eok s e p n).2) ∧
    (∀ (bc : String → String → Bool) (now : Nat) (s : Store)
        (e p : Option String),
      (s.map UserRec.id).Nodup →
      verifiedPreserved s (login bc now s e p).store) ∧
    (∀ (now : Nat) (eok : Bool) (s : Store) (code : String),
      (s.map UserRec.id).Nodup →
      verifiedPreserved s (verifyEmail now eok s code).2) ∧
    (∀ (rtok : String) (now : Nat) (eok : Bool) (s : Store) (email : String),
      (s.map UserRec.id).Nodup →
      verifiedPreserved s (forgotPassword rtok now eok s email).2) ∧
    (∀ (bhash : String → String) (now : Nat) (eok : Bool) (s : Store)
        (tok : String) (p : Option String),
      (s.map UserRec.id).Nodup →
      verifiedPreserved s (resetPassword bhash now eok s tok p).2) ∧
    (∀ (now : Nat) (s : Store),
      (s.map UserRec.id).Nodup →
      verifiedPreserved s (sweepExpiredUnverified now s)) ∧
    (∀ (now : Nat) (s : Store) (v : UserRec),
      v ∈ s → v ∉ sweepExpiredUnverified now s → v.isVerified = false) := by
  refine ⟨?_, ?_, ?_, ?_, ?_, ?_, ?_⟩
  · intro bhash vtok now nid eok s e p n hnd hnid
    rcases signup_store_cases bhash vtok now nid eok s e p n with h | h
    · rw [h]
      exact verifiedPreserved_self s hnd
    · rw [h]
      exact verifiedPreserved_append s hnd _ hnid
  · intro bc now s e p hnd
    rcases login_store_cases bc now s e p with h | ⟨u, hu, h⟩
    · rw [h]
      exact verifiedPreserved_self s hnd
    · rw [h]
      exact verifiedPreserved_saveUser s hnd u _ hu rfl (fun hv => hv)
  · intro now eok s code hnd
    rcases verifyEmail_store_cases now eok s code with h | ⟨u, hu, h⟩
    · rw [h]
      exact verifiedPreserved_self s hnd
    · rw [h]
      exact verifiedPreserved_saveUser s hnd u _ hu rfl (fun _ => rfl)
  · intro rtok now eok s email hnd
    rcases forgotPassword_store_cases rtok now eok s email with h | ⟨u, hu, h⟩
    · rw [h]
      exact verifiedPreserved_self s hnd
    · rw [h]
      exact verifiedPreserved_saveUser s hnd u _ hu rfl (fun hv => hv)
  · intro bhash now eok s tok p hnd
    rcases resetPassword_store_cases bhash now eok s tok p with h | ⟨u, hu, h⟩
    · rw [h]
      exact verifiedPreserved_self s hnd
    · rw [h]
      exact verifiedPreserved_saveUser s hnd u _ hu rfl (fun hv => hv)
  · intro now s hnd
    exact verifiedPreserved_sub s _ hnd
      (fun x hx => List.mem_of_mem_filter hx)
  · intro now s v hv hnot
    exact sweep_deletes_unverified now s v hv hnot

/-- Claim C8 witness: every operation applied to the concrete two-user
store, whose ids 1 and 2 are distinct and where 5 is fresh, plus the
sweep conjuncts at time 9999 where the unverified user is deleted. -/
theorem C8_witness :
    verifiedPreserved [sampleUser, unverifiedUser]
      (signup chash "123456" 1000 5 true [sampleUser, unverifiedUser]
        (some "z@x.com") (some "Password1") (some "Z")).2 ∧
    verifiedPreserved [sampleUser, unverifiedUser]
      (login ccompare 1000 [sampleUser, unverifiedUser] (some "a@x.com")
        (some "Password1")).store ∧
    verifiedPreserved [sampleUser, unverifiedUser]
      (verifyEmail 1000 true [sampleUser, unverifiedUser] "222222").2 ∧
    verifiedPreserved [sampleUser, unverifiedUser]
      (forgotPassword "rt2" 1000 true [sampleUser, unverifiedUser]
        "a@x.com").2 ∧
    verifiedPreserved [sampleUser, unverifiedUser]
      (resetPassword chash 1000 true [sampleUser, unverifiedUser] "rt2"
        (some "NewPass11")).2 ∧
    verifiedPreserved [sampleUser, unverifiedUser]
      (sweepExpiredUnverified 9999 [sampleUser, unverifiedUser]) ∧
    unverifiedUser.isVerified = false :=
  ⟨C8_theorem.1 chash "123456" 1000 5 true [sampleUser, unverifiedUser]
      (some "z@x.com") (some "Password1") (some "Z") (by decide) (by decide),
   C8_theorem.2.1 ccompare 1000 [sampleUser, unverifiedUser]
      (some "a@x.com") (some "Password1") (by decide),
   C8_theorem.2.2.1 1000 true [sampleUser, unverifiedUser] "222222"
      (by decide),
   C8_theorem.2.2.2.1 "rt2" 1000 true [sampleUser, unverifiedUser]
      "a@x.com" (by decide),
   C8_theorem.2.2.2.2.1 chash 1000 true [sampleUser, unverifiedUser] "rt2"
      (some "NewPass11") (by decide),
   C8_theorem.2.2.2.2.2.1 9999 [sampleUser, unverifiedUser] (by decide),
   C8_theorem.2.2.2.2.2.2 9999 [sampleUser, unverifiedUser] unverifiedUser
      (by decide) (by decide)⟩

/-- Claim C9: for a registered but unverified account, login answers 403
with the verification message, leaves the store unchanged and never
reaches the password comparison - the whole outcome is identical for any
two submitted passwords and any two compare functions, and in particular
is independent of whether the password is correct. -/
theorem C9_theorem (bc1 bc2 : String → String → Bool) (now1 now2 : Nat)
    (s : Store) (e : String) (p1 p2 : Option String) (u : UserRec)
    (he : ¬ e = "") (hp1 : falsy p1 = false) (hp2 : falsy p2 = false)
    (hfound : findByEmail s e = some u) (hunv : u.isVerified = false) :
    login bc1 now1 s (some e) p1 =
      { resp := mkResp 403 false "Please verify your email before logging in.",
        store := s, comparedPassword := false } ∧
    login bc1 now1 s (some e) p1 = login bc2 now2 s (some e) p2 := by
  have hfe : falsy (some e) = false := by simp [falsy, he]
  constructor
  · simp [login, hfe, hp1, hfound, hunv]
  · simp [login, hfe, hp1, hp2, hfound, hunv]

/-- Claim C9 witness: the unverified user with the correct password on
one run and a wrong short password on the other. -/
theorem C9_witness :
    login ccompare 1000 [unverifiedUser] (some "b@x.com") (some "Password1") =
      { resp := mkResp 403 false "Please verify your email before logging in.",
        store := [unverifiedUser], comparedPassword := false } ∧
    login ccompare 1000 [unverifiedUser] (some "b@x.com") (some "Password1") =
      login (fun _ _ => true) 2000 [unverifiedUser] (some "b@x.com")
        (some "nope") :=
  C9_theorem ccompare (fun _ _ => true) 1000 2000 [unverifiedUser] "b@x.com"
    (some "Password1") (some "nope") unverifiedUser (by decide) (by decide)
    (by decide) (by decide) (by decide)

/-- Claim C10: when the reset lookup succeeds but the awaited
confirmation-email dispatch fails, resetPassword answers 500, yet the
store already holds the persisted change: the consuming user's hash is
the hash of the new password and both reset fields are cleared, so a 500
from reset-password does not imply an unchanged store. -/
theorem C10_theorem (bhash : String → String) (now : Nat) (s : Store)
    (tok : String) (p : String) (u : UserRec)
    (hlen : ¬ p.length < 8)
    (hfound : findReset s tok now = some u) :
    (resetPassword bhash now false s tok (some p)).1 =
      mkResp 500 false "Server error during password reset." ∧
    (resetPassword bhash now false s tok (some p)).2 = saveUser s { u with
      password := bhash p, resetPasswordToken := none,
      resetPasswordExpiresAt := none } ∧
    ∃ u2 ∈ (resetPassword bhash now false s tok (some p)).2,
      u2.id = u.id ∧ u2.password = bhash p ∧ u2.resetPasswordToken = none ∧
      u2.resetPasswordExpiresAt = none := by
  have hp0 : ¬ p = "" := fun h => hlen (by simp [h])
  have hu : u ∈ s := List.mem_of_find?_eq_some hfound
  refine ⟨?_, ?_, ?_⟩
  · simp [resetPassword, falsy, hp0, hlen, hfound, mkResp]
  · exact resetPassword_found bhash now false s tok p u hp0 hlen hfound
  · rw [resetPassword_found bhash now false s tok p u hp0 hlen hfound]
    exact ⟨_, mem_saveUser_self s u _ hu rfl, rfl, rfl, rfl, rfl⟩

/-- Claim C10 witness: the live reset token consumed at time 1000 with a
failing confirmation dispatch. -/
theorem C10_witness :
    (resetPassword chash 1000 false [liveResetUser] "livetok"
        (some "NewPass11")).1 =
      mkResp 500 false "Server error during password reset." ∧
    (resetPassword chash 1000 false [liveResetUser] "livetok"
        (some "NewPass11")).2 = saveUser [liveResetUser] { liveResetUser with
      password := chash "NewPass11", resetPasswordToken := none,
      resetPasswordExpiresAt := none } ∧
    ∃ u2 ∈ (resetPassword chash 1000 false [liveResetUser] "livetok"
        (some "NewPass11")).2,
      u2.id = liveResetUser.id ∧ u2.password = chash "NewPass11" ∧
      u2.resetPasswordToken = none ∧ u2.resetPasswordExpiresAt = none :=
  C10_theorem chash 1000 [liveResetUser] "livetok" "NewPass11" liveResetUser
    (by decide) (by decide)

end AuthSystem
